import Mathlib

/-!
Verification of the news-pipeline backend (FastAPI service).

This file gives a shallow embedding of the parts of the code base that the
verified properties speak about:

* `database.py` — the run store (`pipeline_runs` and `articles` tables and the
  functions `create_pipeline_run`, `update_pipeline_status`,
  `update_pipeline_progress`, `save_article_to_db`,
  `update_article_blockchain_info`);
* `blockchain_integration.py` — the attestation client (`hash_article_content`,
  `hash_article_metadata`, `create_article_hash`, `store_article_on_blockchain`,
  `store_article_hash`, `integrate_blockchain_hashing`);
* `agents.py` — the orchestrator (`NewsAgent.run_pipeline`,
  `NewsAgent.stop_pipeline`, `NewsAgent.get_status`) and the fetch stage
  (`NewsAgent.fetch_news`).

Conventions of the embedding:

* Wall-clock timestamps (`CURRENT_TIMESTAMP`, `datetime.now()`) are passed in
  explicitly as natural numbers (seconds).
* External collaborators — `hashlib.sha256`, the web3 ledger, HTTP fetching,
  feed parsing, the language model — are modelled as function parameters
  (oracles); everything the repository's own code does with their results is
  translated literally.
* Python `float` scores are modelled as rationals; `int(x)` is truncation
  toward zero (`pyInt`).
* Python string slicing `s[:n]` is `pySlice s n` (the first `n` characters).
* Fallible Python code that returns structured error dictionaries is modelled
  by total functions returning the same structured records; code paths that
  raise are modelled by explicit outcome sum types.
-/

/-! ## Run store: `pipeline_runs` records (database.py) -/

/-- Record of the `pipeline_runs` table (database.py, `init_database`):
columns `pipeline_id`, `status`, `current_cycle`, `total_cycles`,
`articles_processed`, `error_message`, `created_at`, `updated_at`,
`started_at`, `ended_at`, `duration_minutes`.  Timestamps are naturals,
`ended_at` is `none` until set (column default NULL). -/
structure RunRecord where
  pipeline_id : String
  status : String
  current_cycle : Nat
  total_cycles : Nat
  articles_processed : Nat
  error_message : Option String
  created_at : Nat
  updated_at : Nat
  started_at : Nat
  ended_at : Option Nat
  duration_minutes : Nat
deriving Repr, DecidableEq

/-- The statuses that `update_pipeline_status` (database.py lines 192-206)
treats as terminal: `['COMPLETED', 'STOPPED', 'ERROR']`. -/
def terminalStatuses : List String := ["COMPLETED", "STOPPED", "ERROR"]

/-- Embedding of `create_pipeline_run` (database.py lines 181-190): INSERT with
status 'RUNNING', the table defaults `current_cycle = 0`, `total_cycles = 1`,
`articles_processed = 0`, `ended_at NULL`, and `started_at = CURRENT_TIMESTAMP`.
`now` is the database clock at the insert. -/
def create_pipeline_run (pid : String) (duration_minutes : Nat) (now : Nat) : RunRecord :=
  { pipeline_id := pid
    status := "RUNNING"
    current_cycle := 0
    total_cycles := 1
    articles_processed := 0
    error_message := none
    created_at := now
    updated_at := now
    started_at := now
    ended_at := none
    duration_minutes := duration_minutes }

/-- Embedding of `update_pipeline_status` (database.py lines 192-206) applied to
one row matched by the WHERE clause.  When the new status is terminal the UPDATE
also sets `ended_at = CURRENT_TIMESTAMP`; in both branches it overwrites
`error_message` and `updated_at`. -/
def update_pipeline_status (r : RunRecord) (status : String) (error_message : Option String)
    (now : Nat) : RunRecord :=
  if status ∈ terminalStatuses then
    { r with status := status, error_message := error_message,
             ended_at := some now, updated_at := now }
  else
    { r with status := status, error_message := error_message, updated_at := now }

/-- Embedding of `update_pipeline_progress` (database.py lines 208-215) applied
to one row: overwrites `current_cycle`, `articles_processed`, `updated_at`;
leaves every other column (in particular `ended_at` and `status`) alone. -/
def update_pipeline_progress (r : RunRecord) (current_cycle articles_processed : Nat)
    (now : Nat) : RunRecord :=
  { r with current_cycle := current_cycle, articles_processed := articles_processed,
           updated_at := now }

/-- Run records reachable through the run-store operations as the repository
actually invokes them: a record is created by `create_pipeline_run`
(agents.py line 391) and subsequently mutated only by
`update_pipeline_progress` (agents.py line 471) and by `update_pipeline_status`,
which is called only with the terminal statuses `"COMPLETED"` (agents.py
line 498), `"ERROR"` (line 507) and `"STOPPED"` (line 530) — these three call
sites are the only callers of `update_pipeline_status` in the repository. -/
inductive ReachableRun : RunRecord → Prop where
  | created (pid : String) (duration_minutes now : Nat) :
      ReachableRun (create_pipeline_run pid duration_minutes now)
  | progress (r : RunRecord) (current_cycle articles_processed now : Nat) :
      ReachableRun r →
      ReachableRun (update_pipeline_progress r current_cycle articles_processed now)
  | statusUpdate (r : RunRecord) (status : String) (error_message : Option String) (now : Nat) :
      ReachableRun r → status ∈ terminalStatuses →
      ReachableRun (update_pipeline_status r status error_message now)

/-! ## Attestation client (blockchain_integration.py) -/

/-- Python `int(x)` on a rational: truncation toward zero.  For `q = num/den`
with `den > 0` this is `num.tdiv den`. -/
def pyInt (q : ℚ) : ℤ := q.num.tdiv q.den

/-- Python string slicing `s[:n]`: the first `n` characters of `s`. -/
def pySlice (s : String) (n : Nat) : String := ⟨s.data.take n⟩

/-- The `article_data` dictionary assembled in `integrate_blockchain_hashing`
(blockchain_integration.py lines 525-535) and consumed by the hashing and
storage functions: title, content, summary, source, original link, tags and the
authenticity score (a Python float, modelled as a rational). -/
structure ArticleData where
  id : Option Nat
  title : String
  content : String
  summary : String
  source : String
  original_link : String
  tags : String
  authenticity_score : ℚ
  timestamp : String
deriving Repr, DecidableEq

/-- The canonical concatenation hashed by `hash_article_content`
(blockchain_integration.py line 209): `f"{title}{content}{summary}"`. -/
def contentPreimage (title content summary : String) : String :=
  title ++ content ++ summary

/-- Embedding of `BlockchainHasher.hash_article_content` (blockchain_integration.py
lines 207-210).  The external `hashlib.sha256(...).hexdigest()` is the function
parameter `sha256`; the repository's own contribution is the canonical
concatenation it is applied to. -/
def hash_article_content (sha256 : String → String) (title content summary : String) : String :=
  sha256 (contentPreimage title content summary)

/-- The canonical concatenation hashed by `hash_article_metadata`
(blockchain_integration.py line 215):
`f"{source}{original_link}{tags}{int(authenticity_score * 100)}"`. -/
def metadataPreimage (source original_link tags : String) (authenticity_score : ℚ) : String :=
  source ++ original_link ++ tags ++ toString (pyInt (authenticity_score * 100))

/-- Embedding of `BlockchainHasher.hash_article_metadata` (blockchain_integration.py
lines 212-216). -/
def hash_article_metadata (sha256 : String → String) (source original_link tags : String)
    (authenticity_score : ℚ) : String :=
  sha256 (metadataPreimage source original_link tags authenticity_score)

/-- Result dictionary of `create_article_hash` (blockchain_integration.py
lines 435-441). -/
structure ArticleHashes where
  content_hash : String
  metadata_hash : String
  combined_hash : String
  title_hash : String
  timestamp : String
deriving Repr, DecidableEq

/-- Embedding of `BlockchainHasher.create_article_hash` (blockchain_integration.py
lines 421-441). -/
def create_article_hash (sha256 : String → String) (a : ArticleData) : ArticleHashes :=
  let content_hash := hash_article_content sha256 a.title a.content a.summary
  let metadata_hash :=
    hash_article_metadata sha256 a.source a.original_link a.tags a.authenticity_score
  { content_hash := content_hash
    metadata_hash := metadata_hash
    combined_hash := sha256 (content_hash ++ metadata_hash)
    title_hash := sha256 a.title
    timestamp := a.timestamp }

/-- The argument tuple of the `storeArticleHash` contract call as built in
`store_article_on_blockchain` (blockchain_integration.py lines 274-282). -/
structure TxFields where
  title : String
  content : String
  summary : String
  source : String
  original_link : String
  tags : String
  authenticity_score : ℤ
deriving Repr, DecidableEq

/-- The per-field truncations performed by `store_article_on_blockchain` before
the transaction is built (blockchain_integration.py lines 263-269):
`title[:300]`, `content[:500]`, `summary[:200]`, `source[:100]`,
`original_link[:300]`, `tags[:100]`, and `int(float(score) * 100)`. -/
def truncate_article_fields (a : ArticleData) : TxFields :=
  { title := pySlice a.title 300
    content := pySlice a.content 500
    summary := pySlice a.summary 200
    source := pySlice a.source 100
    original_link := pySlice a.original_link 300
    tags := pySlice a.tags 100
    authenticity_score := pyInt (a.authenticity_score * 100) }

/-- Outcome of submitting the built transaction to the external ledger
(gas estimation, signing, `send_raw_transaction`, `wait_for_transaction_receipt`;
blockchain_integration.py lines 284-338): the receipt confirms (`status == 1`,
with the `ArticleHashed` event optionally yielding an on-chain article id), the
receipt reports failure (`status != 1`), or some step raises an exception. -/
inductive SubmitOutcome where
  | confirmed (transaction_hash : String) (block_number : Nat)
      (article_id : Option Nat) (gas_used : Nat)
  | reverted (transaction_hash : String)
  | exn (msg : String)
deriving Repr, DecidableEq

/-- The structured result dictionary returned by `store_article_on_blockchain`
in every code path (blockchain_integration.py lines 255-259, 321-327, 340-349,
352-357). -/
structure StoreResult where
  success : Bool
  stored_on_chain : Bool
  error : Option String
  transaction_hash : Option String
  block_number : Option Nat
  article_id : Option Nat
  explorer_url : Option String
deriving Repr, DecidableEq

/-- The result dictionary `store_article_on_blockchain` builds from the ledger
submission outcome: success (lines 340-349), `receipt.status != 1`
(lines 321-327), or the catch-all `except` branch (lines 352-357).  No outcome
escapes as an exception. -/
def mkStoreResult : SubmitOutcome → StoreResult
  | .confirmed txh block aid _gas =>
      { success := true, stored_on_chain := true, error := none,
        transaction_hash := some txh, block_number := some block, article_id := aid,
        explorer_url := some ("https://testnet.bscscan.com/tx/" ++ txh) }
  | .reverted txh =>
      { success := false, stored_on_chain := false, error := some "Transaction failed",
        transaction_hash := some txh, block_number := none, article_id := none,
        explorer_url := none }
  | .exn msg =>
      { success := false, stored_on_chain := false, error := some msg,
        transaction_hash := none, block_number := none, article_id := none,
        explorer_url := none }

/-- Embedding of `BlockchainHasher.store_article_on_blockchain`
(blockchain_integration.py lines 252-357).  `connected` is the guard
`self.web3 and self.contract and self.account`; when it fails the function
returns the 'Blockchain connection not available' dictionary without building a
transaction (lines 254-259).  Otherwise the transaction is built from the
truncated fields and submitted; `submit` is the external ledger. -/
def store_article_on_blockchain (connected : Bool) (submit : TxFields → SubmitOutcome)
    (a : ArticleData) : StoreResult :=
  if connected then
    mkStoreResult (submit (truncate_article_fields a))
  else
    { success := false, stored_on_chain := false,
      error := some "Blockchain connection not available",
      transaction_hash := none, block_number := none, article_id := none,
      explorer_url := none }

/-! ## Articles table and attestation integration (database.py, agents.py) -/

/-- Row of the `articles` table (database.py, `init_database`): content columns
plus the blockchain sub-record with its defaults `blockchain_stored = FALSE`,
`blockchain_network = 'bsc_testnet'` and NULL hash/transaction columns.
The JSONB `authenticity_score` payload is opaque to the claims and kept as an
optional string. -/
structure ArticleRow where
  id : Nat
  original_title : String
  original_link : String
  image_url : Option String
  generated_content : String
  authenticity_score : Option String
  source : String
  processed_at : Nat
  created_at : Nat
  pipeline_id : Option String
  cycle_number : Nat
  blockchain_stored : Bool
  blockchain_transaction_hash : Option String
  blockchain_article_id : Option Nat
  blockchain_network : String
  blockchain_explorer_url : Option String
  content_hash : Option String
  metadata_hash : Option String
deriving Repr, DecidableEq

/-- Embedding of `save_article_to_db` (database.py lines 240-260): INSERT into
`articles` returning the fresh SERIAL id (modelled as row count + 1); the
blockchain columns take their table defaults and `now` is the database clock
for the timestamp defaults. -/
def save_article_to_db (articles : List ArticleRow) (pipeline_id : Option String)
    (original_title original_link : String) (image_url : Option String)
    (generated_content : String) (authenticity_score : Option String) (source : String)
    (cycle_number : Nat) (now : Nat) : Nat × List ArticleRow :=
  let id := articles.length + 1
  (id, articles ++
    [{ id := id
       original_title := original_title
       original_link := original_link
       image_url := image_url
       generated_content := generated_content
       authenticity_score := authenticity_score
       source := source
       processed_at := now
       created_at := now
       pipeline_id := pipeline_id
       cycle_number := cycle_number
       blockchain_stored := false
       blockchain_transaction_hash := none
       blockchain_article_id := none
       blockchain_network := "bsc_testnet"
       blockchain_explorer_url := none
       content_hash := none
       metadata_hash := none }])

/-- The `blockchain_info` dictionary assembled in `run_pipeline`
(agents.py lines 430-438) and consumed by `update_article_blockchain_info`
(database.py lines 262-284, with its `.get` defaults). -/
structure BlockchainInfo where
  stored_on_chain : Bool
  transaction_hash : Option String
  blockchain_article_id : Option Nat
  network : String
  explorer_url : Option String
  content_hash : Option String
  metadata_hash : Option String
deriving Repr, DecidableEq

/-- Embedding of `update_article_blockchain_info` (database.py lines 262-284):
UPDATE of the blockchain columns of the row matched by id; every other column
is untouched. -/
def update_article_blockchain_info (articles : List ArticleRow) (article_id : Nat)
    (info : BlockchainInfo) : List ArticleRow :=
  articles.map fun a =>
    if a.id = article_id then
      { a with blockchain_stored := info.stored_on_chain
               blockchain_transaction_hash := info.transaction_hash
               blockchain_article_id := info.blockchain_article_id
               blockchain_network := info.network
               blockchain_explorer_url := info.explorer_url
               content_hash := info.content_hash
               metadata_hash := info.metadata_hash }
    else a

/-- Result dictionary of `store_article_hash` (blockchain_integration.py
lines 443-498). -/
structure HashStoreResult where
  success : Bool
  hashes : Option ArticleHashes
  blockchain_result : Option StoreResult
  stored_on_chain : Bool
  network : String
deriving Repr, DecidableEq

/-- Embedding of `BlockchainHasher.store_article_hash` (blockchain_integration.py
lines 443-498): computes the off-chain hashes, attempts the on-chain store, and
reports `success = True` with `stored_on_chain` taken from the blockchain
result.  The outer `except` (lines 485-498) fires only if hashing itself
raises, which the total embedding cannot; the network name comes from the
configured network info (`bsc_testnet`). -/
def store_article_hash (sha256 : String → String) (connected : Bool)
    (submit : TxFields → SubmitOutcome) (a : ArticleData) : HashStoreResult :=
  let hashes := create_article_hash sha256 a
  let blockchain_result := store_article_on_blockchain connected submit a
  { success := true
    hashes := some hashes
    blockchain_result := some blockchain_result
    stored_on_chain := blockchain_result.stored_on_chain
    network := "bsc_testnet" }

/-- The per-article dictionary built by `generate_articles` (agents.py
lines 349-360), later enriched by `integrate_blockchain_hashing`
(blockchain_integration.py lines 542-548) with the optional
`blockchain_hashes`, `blockchain_stored`, `blockchain_network` and
`blockchain_transaction` keys (absent = `none`). -/
structure FinalArticle where
  id : Nat
  original_title : String
  original_link : String
  image_url : Option String
  generated_content : String
  authenticity_score : Option String
  processed_at : String
  source : String
  pipeline_id : Option String
  cycle_number : Nat
  blockchain_hashes : Option ArticleHashes
  blockchain_stored : Option Bool
  blockchain_network : Option String
  blockchain_transaction : Option StoreResult
deriving Repr, DecidableEq

/-- The `article_data` dictionary built from a generated article in
`integrate_blockchain_hashing` (blockchain_integration.py lines 525-535):
summary and tags are empty, the authenticity score is the hard-coded default
0.75. -/
def article_to_article_data (art : FinalArticle) : ArticleData :=
  { id := some art.id
    title := art.original_title
    content := art.generated_content
    summary := ""
    source := art.source
    original_link := art.original_link
    tags := ""
    authenticity_score := 3/4
    timestamp := art.processed_at }

/-- One iteration of the `integrate_blockchain_hashing` loop
(blockchain_integration.py lines 523-550): hash and store the article, then —
since `hash_result['success']` — record the hashes, the stored flag and the
network on the article, attaching the raw blockchain result only when the
on-chain store succeeded (lines 540-548). -/
def hash_one_article (sha256 : String → String) (connected : Bool)
    (submit : TxFields → SubmitOutcome) (art : FinalArticle) : FinalArticle :=
  let hr := store_article_hash sha256 connected submit (article_to_article_data art)
  if hr.success then
    let art1 := { art with blockchain_hashes := hr.hashes
                           blockchain_stored := some hr.stored_on_chain
                           blockchain_network := some hr.network }
    if hr.stored_on_chain then { art1 with blockchain_transaction := hr.blockchain_result }
    else art1
  else art

/-- Embedding of `integrate_blockchain_hashing` (blockchain_integration.py
lines 501-581): the article list mapped through the per-article hashing step
(the broadcast side channel carries no article state). -/
def integrate_blockchain_hashing (sha256 : String → String) (connected : Bool)
    (submit : TxFields → SubmitOutcome) (articles : List FinalArticle) : List FinalArticle :=
  articles.map (hash_one_article sha256 connected submit)

/-- The `blockchain_info` dictionary as `run_pipeline` builds it from a hashed
article (agents.py lines 430-438): `blockchain_transaction` is missing unless
the on-chain store succeeded, so its `.get(...)` sub-lookups default to
`None`. -/
def blockchain_info_of (art : FinalArticle) : BlockchainInfo :=
  { stored_on_chain := art.blockchain_stored.getD false
    transaction_hash := art.blockchain_transaction.bind (fun r => r.transaction_hash)
    blockchain_article_id := art.blockchain_transaction.bind (fun r => r.article_id)
    network := art.blockchain_network.getD "bsc_testnet"
    explorer_url := art.blockchain_transaction.bind (fun r => r.explorer_url)
    content_hash := art.blockchain_hashes.map (fun h => h.content_hash)
    metadata_hash := art.blockchain_hashes.map (fun h => h.metadata_hash) }

/-- The Step-5 update loop of `run_pipeline` (agents.py lines 426-467): for each
hashed article that carries `blockchain_hashes` or a truthy
`blockchain_stored`, write the blockchain info onto its database row. -/
def apply_blockchain_updates (rows : List ArticleRow) : List FinalArticle → List ArticleRow
  | [] => rows
  | art :: rest =>
      if art.blockchain_hashes.isSome || art.blockchain_stored.getD false then
        apply_blockchain_updates
          (update_article_blockchain_info rows art.id (blockchain_info_of art)) rest
      else
        apply_blockchain_updates rows rest

/-- One item as it enters the generate stage (agents.py lines 304-346): the
original title/link/image/source plus the generated content (LLM output or the
degraded fallback of line 334) and the JSON authenticity payload. -/
structure GenInput where
  title : String
  link : String
  image_url : Option String
  generated_content : String
  authenticity_payload : Option String
  source : String
deriving Repr, DecidableEq

/-- Embedding of the `generate_articles` save loop (agents.py lines 298-373):
each item is saved to the database immediately (line 337) and the returned id
is recorded on the in-memory article dictionary (lines 349-360).  The
`processed_at` iso-string is irrelevant to the claims and kept empty. -/
def generate_articles (rows : List ArticleRow) (pid : Option String) (cycle now : Nat) :
    List GenInput → List ArticleRow × List FinalArticle
  | [] => (rows, [])
  | it :: rest =>
      let saved := save_article_to_db rows pid it.title it.link it.image_url
        it.generated_content it.authenticity_payload it.source cycle now
      let fa : FinalArticle :=
        { id := saved.1
          original_title := it.title
          original_link := it.link
          image_url := it.image_url
          generated_content := it.generated_content
          authenticity_score := it.authenticity_payload
          processed_at := ""
          source := it.source
          pipeline_id := pid
          cycle_number := cycle
          blockchain_hashes := none
          blockchain_stored := none
          blockchain_network := none
          blockchain_transaction := none }
      let rest' := generate_articles saved.2 pid cycle now rest
      (rest'.1, fa :: rest'.2)

/-- Steps 4 and 5 of one pipeline cycle (agents.py lines 414-467): generate and
save the articles, run the attestation over each, and write the attestation
results back onto the article rows. -/
def cycle_articles_step (sha256 : String → String) (connected : Bool)
    (submit : TxFields → SubmitOutcome) (rows : List ArticleRow) (pid : Option String)
    (cycle now : Nat) (items : List GenInput) : List ArticleRow × List FinalArticle :=
  let gen := generate_articles rows pid cycle now items
  let hashed := integrate_blockchain_hashing sha256 connected submit gen.2
  (apply_blockchain_updates gen.1 hashed, hashed)

/-- Specification helper: the row that `save_article_to_db` appends for an item
when the table already holds `offset` rows. -/
def mkRow (offset : Nat) (pid : Option String) (cycle now : Nat) (it : GenInput) : ArticleRow :=
  { id := offset + 1
    original_title := it.title
    original_link := it.link
    image_url := it.image_url
    generated_content := it.generated_content
    authenticity_score := it.authenticity_payload
    source := it.source
    processed_at := now
    created_at := now
    pipeline_id := pid
    cycle_number := cycle
    blockchain_stored := false
    blockchain_transaction_hash := none
    blockchain_article_id := none
    blockchain_network := "bsc_testnet"
    blockchain_explorer_url := none
    content_hash := none
    metadata_hash := none }

/-- Specification helper: the in-memory article that `generate_articles` builds
for an item saved with id `offset + 1`. -/
def mkFa (offset : Nat) (pid : Option String) (cycle : Nat) (it : GenInput) : FinalArticle :=
  { id := offset + 1
    original_title := it.title
    original_link := it.link
    image_url := it.image_url
    generated_content := it.generated_content
    authenticity_score := it.authenticity_payload
    processed_at := ""
    source := it.source
    pipeline_id := pid
    cycle_number := cycle
    blockchain_hashes := none
    blockchain_stored := none
    blockchain_network := none
    blockchain_transaction := none }

/-- Specification helper: the rows appended by `generate_articles` for a list
of items, starting after `offset` existing rows. -/
def genRows (offset : Nat) (pid : Option String) (cycle now : Nat) :
    List GenInput → List ArticleRow
  | [] => []
  | it :: rest => mkRow offset pid cycle now it :: genRows (offset + 1) pid cycle now rest

/-- Specification helper: the in-memory articles produced by
`generate_articles` for a list of items, starting after `offset` existing
rows. -/
def genFas (offset : Nat) (pid : Option String) (cycle : Nat) :
    List GenInput → List FinalArticle
  | [] => []
  | it :: rest => mkFa offset pid cycle it :: genFas (offset + 1) pid cycle rest

/-- Specification helper: the id and attestation-independent content of an
article row (what `update_article_blockchain_info` never touches). -/
def coreView (r : ArticleRow) : Nat × String × String :=
  (r.id, r.original_title, r.generated_content)

/-- Concrete generate-stage item used by the C2 witness. -/
def c2Item : GenInput :=
  { title := "T", link := "L", image_url := none, generated_content := "G",
    authenticity_payload := none, source := "S" }

/-! ## Fetch stage (agents.py, `NewsAgent.fetch_news`) -/

/-- One RSS feed entry as read in the fetch loop (agents.py lines 86-109):
title, summary, link, published date, and the image URL already extracted from
the RSS media metadata (lines 88-99, an external-parser concern). -/
structure FeedEntry where
  title : String
  summary : String
  link : String
  image_url : Option String
  published : String
deriving Repr, DecidableEq

/-- Outcome of `feedparser.parse(source_url)` for one source (agents.py
line 84): a list of entries, or a raised exception caught by the per-source
`except` (lines 162-163). -/
inductive FeedFetch where
  | ok (entries : List FeedEntry)
  | exn (msg : String)
deriving Repr, DecidableEq

/-- Outcome of the per-item page retrieval and HTML parsing (agents.py
lines 112-153): an HTTP response with status code, the cleaned readable text
(before the 2000-character truncation) and the optional page image extracted
from Open-Graph/Twitter-card/first-image tags; or a raised exception caught by
the per-item `except` (lines 154-156). -/
inductive PageFetch where
  | ok (status : Nat) (text : String) (page_image : Option String)
  | exn (msg : String)
deriving Repr, DecidableEq

/-- The article dictionary built per entry in `fetch_news` (agents.py
lines 101-109). -/
structure RawArticle where
  title : String
  summary : String
  link : String
  image_url : Option String
  published : String
  source : String
  content : String
deriving Repr, DecidableEq

/-- Per-item body of the fetch loop (agents.py lines 101-158): build the
article from the entry with empty content; on a successful 200 response take
the first 2000 characters of the cleaned text (line 153) and fill the image
URL from the page when the RSS gave none (lines 121-143); on a non-200
response leave the article as built; on an exception fall back to the entry's
summary (line 156). -/
def fetch_item (page : String → PageFetch) (source_url : String) (e : FeedEntry) : RawArticle :=
  let base : RawArticle :=
    { title := e.title, summary := e.summary, link := e.link, image_url := e.image_url,
      published := e.published, source := source_url, content := "" }
  match page e.link with
  | .ok status text page_image =>
      if status = 200 then
        { base with content := pySlice text 2000,
                    image_url := match base.image_url with
                                 | some u => some u
                                 | none => page_image }
      else base
  | .exn _ => { base with content := e.summary }

/-- Per-source body of the fetch loop (agents.py lines 79-163): parse the
feed, process the first three entries (`feed.entries[:3]`, line 86); a feed
failure is caught by the per-source `except` and yields no items from that
source. -/
def fetch_source (page : String → PageFetch) (feed : String → FeedFetch)
    (source_url : String) : List RawArticle :=
  match feed source_url with
  | .ok entries => (entries.take 3).map (fetch_item page source_url)
  | .exn _ => []

/-- Embedding of `NewsAgent.fetch_news` (agents.py lines 73-166): accumulate
the items of every source in order. -/
def fetch_news (page : String → PageFetch) (feed : String → FeedFetch)
    (sources : List String) : List RawArticle :=
  sources.foldl (fun acc s => acc ++ fetch_source page feed s) []

/-- Concrete feed entry used by the C8 witness; its page fetch times out. -/
def c8Entry : FeedEntry :=
  { title := "E", summary := "SUM", link := "L1", image_url := none, published := "" }

/-- Concrete page oracle used by the C8 witness. -/
def c8Page : String → PageFetch := fun l =>
  if l = "L1" then PageFetch.exn "timeout" else PageFetch.ok 200 "body text" none

/-- Concrete feed oracle used by the C8 witness: source S1 is down, source S2
yields one entry. -/
def c8Feed : String → FeedFetch := fun s =>
  if s = "S1" then FeedFetch.exn "down" else FeedFetch.ok [c8Entry]

/-- Concrete article used by the C4 counterexample. -/
def c4ArticleA : ArticleData :=
  { id := none, title := "Summit", content := "Body", summary := "Lead",
    source := "cnn", original_link := "https://a", tags := "t1",
    authenticity_score := 3/4, timestamp := "" }

/-- The same article with only the `source` field changed. -/
def c4ArticleB : ArticleData := { c4ArticleA with source := "bbc" }

/-! ## Pipeline orchestrator (agents.py, `NewsAgent`) -/

/-- The orchestrator's in-memory state (agents.py lines 27-32). -/
structure AgentState where
  is_running : Bool
  current_pipeline_id : Option String
  start_time : Option Nat
  current_cycle : Nat
  total_articles_processed : Nat
deriving Repr, DecidableEq

/-- The run store as the orchestrator sees it: the `pipeline_runs` rows plus a
history of the statuses written by `update_pipeline_status`, in write order.
The history is proof instrumentation (a ghost log of the UPDATE calls, not a
table of the schema); it carries no behaviour. -/
structure RunStore where
  runs : List RunRecord
  statusWrites : List (String × String)
deriving Repr, DecidableEq

/-- Table-level `create_pipeline_run` (database.py lines 181-190): INSERT of
the new row. -/
def db_create_pipeline_run (db : RunStore) (pid : String) (duration_minutes now : Nat) :
    RunStore :=
  { db with runs := db.runs ++ [create_pipeline_run pid duration_minutes now] }

/-- Table-level `update_pipeline_status` (database.py lines 192-206): UPDATE of
the rows matched by the WHERE clause, plus the ghost record of the write. -/
def db_update_pipeline_status (db : RunStore) (pid status : String)
    (error_message : Option String) (now : Nat) : RunStore :=
  { runs := db.runs.map fun r =>
      if r.pipeline_id = pid then update_pipeline_status r status error_message now else r,
    statusWrites := db.statusWrites ++ [(pid, status)] }

/-- Table-level `update_pipeline_progress` (database.py lines 208-215). -/
def db_update_pipeline_progress (db : RunStore) (pid : String)
    (current_cycle articles_processed now : Nat) : RunStore :=
  { db with runs := db.runs.map fun r =>
      if r.pipeline_id = pid then
        update_pipeline_progress r current_cycle articles_processed now
      else r }

/-- What one cycle of the stage pipeline produces and costs, as far as the
orchestrator's control flow is concerned: how many articles the generate stage
saved, how long the cycle took (seconds), and whether an exception escaped the
cycle body into `run_pipeline`'s outer `except` (agents.py lines 506-514; the
exception is modelled as raised right after the cycle counter increments at
line 396). -/
structure CycleSpec where
  articles : Nat
  duration : Nat
  raises : Bool
deriving Repr, DecidableEq

/-- Inputs of one `run_pipeline` invocation: the run id (`uuid4`), the end of
the time budget, the behaviour of each cycle (indexed from 1), and the cycle
during whose execution or inter-cycle sleep `stop_pipeline` is invoked, if
any. -/
structure LoopConfig where
  pid : String
  end_time : Nat
  sched : Nat → CycleSpec
  stopDuring : Option Nat

/-- State carried around the `while` loop of `run_pipeline` (agents.py
lines 395-495). -/
structure LoopState where
  agent : AgentState
  db : RunStore
  now : Nat
  errored : Option String
deriving Repr, DecidableEq

/-- The cycle loop of `run_pipeline` (agents.py lines 395-495), fuel-bounded.
Each iteration re-checks `self.is_running and datetime.now() < end_time`,
increments the cycle counter (line 396), runs the four stages plus attestation
(counted by `CycleSpec.articles`; an exception escapes to the outer `except`),
updates the progress row (line 471), and then sleeps 300 seconds, or the
remaining budget if that is shorter, or breaks immediately when the budget is
spent (lines 489-495).  When `stop_pipeline` is invoked during the cycle or
the following sleep (`stopDuring = some cycle`), it clears `is_running`
(line 523) and its cleanup task `_stop_pipeline_cleanup` writes STOPPED to the
run store (line 530) while the loop coroutine is still awaiting; the loop
itself only observes the cleared flag when it next evaluates its condition. -/
def run_cycle_loop (cfg : LoopConfig) : Nat → LoopState → LoopState
  | 0, st => st
  | fuel + 1, st =>
      if st.agent.is_running ∧ st.now < cfg.end_time then
        let cycle := st.agent.current_cycle + 1
        let spec := cfg.sched cycle
        if spec.raises then
          { st with agent := { st.agent with current_cycle := cycle },
                    errored := some "exception in cycle" }
        else
          let agent1 : AgentState :=
            { st.agent with
                current_cycle := cycle,
                total_articles_processed :=
                  st.agent.total_articles_processed + spec.articles }
          let now1 := st.now + spec.duration
          let db1 := db_update_pipeline_progress st.db cfg.pid cycle
            agent1.total_articles_processed now1
          let stopped := cfg.stopDuring = some cycle
          let agent2 := if stopped then { agent1 with is_running := false } else agent1
          let db2 :=
            if stopped then db_update_pipeline_status db1 cfg.pid "STOPPED" none now1
            else db1
          let remaining : Int := (cfg.end_time : Int) - (now1 : Int)
          if remaining > 300 then
            run_cycle_loop cfg fuel
              { agent := agent2, db := db2, now := now1 + 300, errored := none }
          else if remaining > 0 then
            run_cycle_loop cfg fuel
              { agent := agent2, db := db2, now := cfg.end_time, errored := none }
          else
            { agent := agent2, db := db2, now := now1, errored := none }
      else st

/-- The entry assignments of `run_pipeline` once the reentrancy guard passes
(agents.py lines 381-385): fresh run id, fresh start time, counters reset to
zero. -/
def pipeline_init (pid : String) (now : Nat) : AgentState :=
  { is_running := true, current_pipeline_id := some pid, start_time := some now,
    current_cycle := 0, total_articles_processed := 0 }

/-- The `finally` block of `run_pipeline` (agents.py lines 515-518): clear the
running flag and the current run id; every other field is untouched. -/
def pipeline_cleanup (s : AgentState) : AgentState :=
  { s with is_running := false, current_pipeline_id := none }

/-- The loop's final state for a given invocation of `run_pipeline`. -/
def loop_final (db : RunStore) (pid : String) (duration_minutes now : Nat)
    (sched : Nat → CycleSpec) (stopDuring : Option Nat) (fuel : Nat) : LoopState :=
  run_cycle_loop
    { pid := pid, end_time := now + 60 * duration_minutes, sched := sched,
      stopDuring := stopDuring }
    fuel
    { agent := pipeline_init pid now,
      db := db_create_pipeline_run db pid duration_minutes now,
      now := now, errored := none }

/-- Embedding of `NewsAgent.run_pipeline` (agents.py lines 375-518).  A
reentrant call returns immediately (lines 377-379; the only effect is a
broadcast/log update).  Otherwise: initialize the agent state, create the run
record, run the cycle loop; if an exception escaped the loop the `except`
branch writes ERROR (line 507); otherwise the post-loop code writes COMPLETED
unconditionally (line 498) — including when the loop exited because
`stop_pipeline` cleared the flag; finally the cleanup clears the running flag
and the run id. -/
def run_pipeline (s : AgentState) (db : RunStore) (pid : String)
    (duration_minutes now : Nat) (sched : Nat → CycleSpec) (stopDuring : Option Nat)
    (fuel : Nat) : AgentState × RunStore :=
  if s.is_running then (s, db)
  else
    let fin := loop_final db pid duration_minutes now sched stopDuring fuel
    match fin.errored with
    | some msg =>
        (pipeline_cleanup fin.agent,
         db_update_pipeline_status fin.db pid "ERROR" (some msg) fin.now)
    | none =>
        (pipeline_cleanup fin.agent,
         db_update_pipeline_status fin.db pid "COMPLETED" none fin.now)

/-- Embedding of `NewsAgent.stop_pipeline` (agents.py lines 520-525): when a
run is active, clear the running flag; the STOPPED write of the spawned
cleanup task is modelled at the loop boundary in `run_cycle_loop`. -/
def stop_pipeline (s : AgentState) : AgentState :=
  if s.is_running && s.current_pipeline_id.isSome then { s with is_running := false } else s

/-- The dictionary returned by `NewsAgent.get_status` (agents.py
lines 533-541). -/
structure StatusReport where
  is_running : Bool
  pipeline_id : Option String
  start_time : Option Nat
  current_cycle : Nat
  total_articles_processed : Nat
deriving Repr, DecidableEq

/-- Embedding of `NewsAgent.get_status` (agents.py lines 533-541). -/
def get_status (s : AgentState) : StatusReport :=
  { is_running := s.is_running, pipeline_id := s.current_pipeline_id,
    start_time := s.start_time, current_cycle := s.current_cycle,
    total_articles_processed := s.total_articles_processed }

/-! ## Claim C6 -/

/-- C6: for every run record reachable through the run-store operations as the
orchestrator invokes them, `ended_at` is non-null iff the status is terminal
(`COMPLETED`/`STOPPED`/`ERROR`); moreover `create_pipeline_run` initializes a
`RUNNING` record with `ended_at` null, `update_pipeline_status` sets `ended_at`
exactly when the new status is terminal, and `update_pipeline_progress` (the
only other operation that touches a run row) never writes `ended_at`. -/
theorem c6_ended_at_iff_terminal :
    (∀ r : RunRecord, ReachableRun r → (r.ended_at ≠ none ↔ r.status ∈ terminalStatuses)) ∧
    (∀ pid duration_minutes now,
      (create_pipeline_run pid duration_minutes now).status = "RUNNING" ∧
      (create_pipeline_run pid duration_minutes now).ended_at = none) ∧
    (∀ (r : RunRecord) (status : String) (err : Option String) (now : Nat),
      (update_pipeline_status r status err now).ended_at =
        if status ∈ terminalStatuses then some now else r.ended_at) ∧
    (∀ (r : RunRecord) (c a now : Nat),
      (update_pipeline_progress r c a now).ended_at = r.ended_at) := by
  refine ⟨?_, ?_, ?_, ?_⟩
  · intro r h
    induction h with
    | created pid d now => simp [create_pipeline_run, terminalStatuses]
    | progress r c a now _ ih => simpa [update_pipeline_progress] using ih
    | statusUpdate r status err now _ hterm ih =>
        simp [update_pipeline_status, hterm]
  · intro pid d now
    exact ⟨rfl, rfl⟩
  · intro r status err now
    by_cases hterm : status ∈ terminalStatuses <;>
      simp [update_pipeline_status, hterm]
  · intro r c a now
    rfl

/-- Witness for C6: a concrete reachable record (created, then completed at
time 5) satisfies the invariant; its `ended_at` is set and its status is
terminal. -/
theorem c6_witness :
    ReachableRun (update_pipeline_status (create_pipeline_run "p" 30 0) "COMPLETED" none 5) ∧
    ((update_pipeline_status (create_pipeline_run "p" 30 0) "COMPLETED" none 5).ended_at ≠ none ↔
      (update_pipeline_status (create_pipeline_run "p" 30 0) "COMPLETED" none 5).status ∈
        terminalStatuses) := by
  have hreach : ReachableRun
      (update_pipeline_status (create_pipeline_run "p" 30 0) "COMPLETED" none 5) :=
    ReachableRun.statusUpdate _ _ _ _ (ReachableRun.created "p" 30 0) (by decide)
  exact ⟨hreach, c6_ended_at_iff_terminal.1 _ hreach⟩

/-! ## Claim C3 -/

/-- Counterexample to C3 as stated: calling `update_pipeline_status` with
`"COMPLETED"` twice in a row does NOT leave the record with identical values
whenever the second call happens at a later database timestamp, because the
UPDATE re-executes `ended_at = CURRENT_TIMESTAMP` on every terminal call
(database.py lines 196-200).  Concretely, completing at time 10 and again at
time 20 moves `ended_at` from 10 to 20. -/
theorem c3_counterexample :
    (update_pipeline_status (create_pipeline_run "p" 30 0) "COMPLETED" none 10).ended_at =
      some 10 ∧
    (update_pipeline_status
        (update_pipeline_status (create_pipeline_run "p" 30 0) "COMPLETED" none 10)
        "COMPLETED" none 20).ended_at = some 20 ∧
    (update_pipeline_status
        (update_pipeline_status (create_pipeline_run "p" 30 0) "COMPLETED" none 10)
        "COMPLETED" none 20) ≠
      (update_pipeline_status (create_pipeline_run "p" 30 0) "COMPLETED" none 10) := by
  refine ⟨by decide, by decide, by decide⟩

/-- C3 amended: calling `update_pipeline_status(runId, "COMPLETED")` twice in a
row raises no error (the operation is total and the second UPDATE matches the
row again), and the second call is a plain overwrite: status, error message,
cycle and article counters, identity and creation data are all unchanged, but
`ended_at` (and `updated_at`) are re-written with the second call's
`CURRENT_TIMESTAMP`; the record is bit-for-bit identical to the first result
exactly when both calls execute at the same timestamp. -/
theorem c3_update_status_idempotent_amended (r : RunRecord) (err : Option String)
    (now1 now2 : Nat) :
    (update_pipeline_status (update_pipeline_status r "COMPLETED" err now1)
        "COMPLETED" err now2).status =
      (update_pipeline_status r "COMPLETED" err now1).status ∧
    (update_pipeline_status (update_pipeline_status r "COMPLETED" err now1)
        "COMPLETED" err now2).error_message =
      (update_pipeline_status r "COMPLETED" err now1).error_message ∧
    (update_pipeline_status (update_pipeline_status r "COMPLETED" err now1)
        "COMPLETED" err now2).current_cycle =
      (update_pipeline_status r "COMPLETED" err now1).current_cycle ∧
    (update_pipeline_status (update_pipeline_status r "COMPLETED" err now1)
        "COMPLETED" err now2).articles_processed =
      (update_pipeline_status r "COMPLETED" err now1).articles_processed ∧
    (update_pipeline_status (update_pipeline_status r "COMPLETED" err now1)
        "COMPLETED" err now2).pipeline_id =
      (update_pipeline_status r "COMPLETED" err now1).pipeline_id ∧
    (update_pipeline_status (update_pipeline_status r "COMPLETED" err now1)
        "COMPLETED" err now2).created_at =
      (update_pipeline_status r "COMPLETED" err now1).created_at ∧
    (update_pipeline_status (update_pipeline_status r "COMPLETED" err now1)
        "COMPLETED" err now2).started_at =
      (update_pipeline_status r "COMPLETED" err now1).started_at ∧
    (update_pipeline_status (update_pipeline_status r "COMPLETED" err now1)
        "COMPLETED" err now2).duration_minutes =
      (update_pipeline_status r "COMPLETED" err now1).duration_minutes ∧
    (update_pipeline_status (update_pipeline_status r "COMPLETED" err now1)
        "COMPLETED" err now2).ended_at = some now2 ∧
    (now2 = now1 →
      update_pipeline_status (update_pipeline_status r "COMPLETED" err now1)
          "COMPLETED" err now2 =
        update_pipeline_status r "COMPLETED" err now1) := by
  have hterm : ("COMPLETED" : String) ∈ terminalStatuses := by decide
  refine ⟨?_, ?_, ?_, ?_, ?_, ?_, ?_, ?_, ?_, ?_⟩ <;>
    simp [update_pipeline_status, hterm]

/-- Witness for C3's amended theorem at a concrete record and timestamps. -/
theorem c3_witness :
    ((5 : Nat) = 5 → True) ∧
    (update_pipeline_status
        (update_pipeline_status (create_pipeline_run "p" 30 0) "COMPLETED" none 5)
        "COMPLETED" none 5).ended_at = some 5 ∧
    update_pipeline_status
        (update_pipeline_status (create_pipeline_run "p" 30 0) "COMPLETED" none 5)
        "COMPLETED" none 5 =
      update_pipeline_status (create_pipeline_run "p" 30 0) "COMPLETED" none 5 := by
  have h := c3_update_status_idempotent_amended (create_pipeline_run "p" 30 0) none 5 5
  exact ⟨fun _ => trivial, h.2.2.2.2.2.2.2.2.1, h.2.2.2.2.2.2.2.2.2 rfl⟩

/-! ## String-concatenation cancellation helpers -/

/-- Right cancellation for string concatenation. -/
theorem strAppendCancelRight {a b c : String} (h : a ++ c = b ++ c) : a = b := by
  apply String.ext
  have hd : a.data ++ c.data = b.data ++ c.data := by
    simpa [String.data_append] using congrArg String.data h
  exact List.append_cancel_right hd

/-- Left cancellation for string concatenation. -/
theorem strAppendCancelLeft {a b c : String} (h : a ++ b = a ++ c) : b = c := by
  apply String.ext
  have hd : a.data ++ b.data = a.data ++ c.data := by
    simpa [String.data_append] using congrArg String.data h
  exact List.append_cancel_left hd

/-- Length bound for Python slicing. -/
theorem pySlice_length_le (s : String) (n : Nat) : (pySlice s n).length ≤ n := by
  show (s.data.take n).length ≤ n
  simp [List.length_take]

/-! ## Claim C4 -/

/-- Counterexample to C4 as stated: the content digest is a hash of
title+content+summary only, so changing exactly one input field — here
`source`, one of the seven fields the claim enumerates — while holding the
others fixed does NOT change the content digest.  The two articles below agree
on title, content, summary, link, tags and score, differ in `source`, have
literally equal content preimages, and therefore equal content digests under
any hash function (shown here instantiated). -/
theorem c4_counterexample :
    c4ArticleA.source ≠ c4ArticleB.source ∧
    c4ArticleA.title = c4ArticleB.title ∧
    c4ArticleA.content = c4ArticleB.content ∧
    c4ArticleA.summary = c4ArticleB.summary ∧
    c4ArticleA.original_link = c4ArticleB.original_link ∧
    c4ArticleA.tags = c4ArticleB.tags ∧
    c4ArticleA.authenticity_score = c4ArticleB.authenticity_score ∧
    contentPreimage c4ArticleA.title c4ArticleA.content c4ArticleA.summary =
      contentPreimage c4ArticleB.title c4ArticleB.content c4ArticleB.summary ∧
    (create_article_hash (fun s => s) c4ArticleA).content_hash =
      (create_article_hash (fun s => s) c4ArticleB).content_hash := by
  exact ⟨by decide, rfl, rfl, rfl, rfl, rfl, rfl, rfl, rfl⟩

/-- C4 amended: `computeDigests` is deterministic — two articles that agree on
all seven input fields get identical content and metadata digests — and,
provided the hash is injective (collision-free), changing exactly one of the
fields that feed the content digest (title, content or summary) while holding
the others fixed changes the content digest.  Changing source, link, tags or
score can leave the content digest unchanged (those fields feed only the
metadata digest), which is what the counterexample exhibits. -/
theorem c4_digest_amended (sha256 : String → String) (hinj : Function.Injective sha256)
    (a b : ArticleData)
    (hseven : a.title = b.title ∧ a.content = b.content ∧ a.summary = b.summary ∧
      a.source = b.source ∧ a.original_link = b.original_link ∧ a.tags = b.tags ∧
      a.authenticity_score = b.authenticity_score)
    (t c s t2 c2 s2 : String) :
    ((create_article_hash sha256 a).content_hash =
        (create_article_hash sha256 b).content_hash ∧
      (create_article_hash sha256 a).metadata_hash =
        (create_article_hash sha256 b).metadata_hash) ∧
    (t2 ≠ t → hash_article_content sha256 t2 c s ≠ hash_article_content sha256 t c s) ∧
    (c2 ≠ c → hash_article_content sha256 t c2 s ≠ hash_article_content sha256 t c s) ∧
    (s2 ≠ s → hash_article_content sha256 t c s2 ≠ hash_article_content sha256 t c s) := by
  obtain ⟨h1, h2, h3, h4, h5, h6, h7⟩ := hseven
  refine ⟨⟨?_, ?_⟩, ?_, ?_, ?_⟩
  · simp [create_article_hash, hash_article_content, contentPreimage, h1, h2, h3]
  · simp [create_article_hash, hash_article_metadata, metadataPreimage, h4, h5, h6, h7]
  · intro hne heq
    apply hne
    have hpre := hinj heq
    simp only [contentPreimage] at hpre
    exact strAppendCancelRight (strAppendCancelRight hpre)
  · intro hne heq
    apply hne
    have hpre := hinj heq
    simp only [contentPreimage] at hpre
    exact strAppendCancelLeft (strAppendCancelRight hpre)
  · intro hne heq
    apply hne
    have hpre := hinj heq
    simp only [contentPreimage] at hpre
    exact strAppendCancelLeft hpre

/-- Witness for C4's amended theorem: the identity function is an injective
hash stand-in; at concrete fields the digests of equal articles agree and a
changed title changes the content digest. -/
theorem c4_witness :
    Function.Injective (fun s : String => s) ∧
    (create_article_hash (fun s => s) c4ArticleA).content_hash =
      (create_article_hash (fun s => s) c4ArticleA).content_hash ∧
    ("X" : String) ≠ "Summit" ∧
    hash_article_content (fun s => s) "X" "Body" "Lead" ≠
      hash_article_content (fun s => s) "Summit" "Body" "Lead" := by
  have hinj : Function.Injective (fun s : String => s) := fun _ _ h => h
  have h := c4_digest_amended (fun s => s) hinj c4ArticleA c4ArticleA
    ⟨rfl, rfl, rfl, rfl, rfl, rfl, rfl⟩ "Summit" "Body" "Lead" "X" "c2" "s2"
  exact ⟨hinj, h.1.1, by decide, h.2.1 (by decide)⟩

/-! ## Claim C9 -/

/-- C9: the metadata digest quantizes the authenticity score by
`int(score * 100)` before hashing — any two scores with the same quantization
(source, link, tags held fixed) give equal metadata digests — and there exist
distinct scores less than 0.01 apart that are indistinguishable in the
digest. -/
theorem c9_score_quantization :
    (∀ (sha256 : String → String) (source link tags : String) (s1 s2 : ℚ),
      pyInt (s1 * 100) = pyInt (s2 * 100) →
      hash_article_metadata sha256 source link tags s1 =
        hash_article_metadata sha256 source link tags s2) ∧
    (∃ s1 s2 : ℚ, s1 ≠ s2 ∧ |s1 - s2| < 1/100 ∧
      ∀ (sha256 : String → String) (source link tags : String),
        hash_article_metadata sha256 source link tags s1 =
          hash_article_metadata sha256 source link tags s2) := by
  have quant : ∀ (sha256 : String → String) (source link tags : String) (s1 s2 : ℚ),
      pyInt (s1 * 100) = pyInt (s2 * 100) →
      hash_article_metadata sha256 source link tags s1 =
        hash_article_metadata sha256 source link tags s2 := by
    intro sha256 source link tags s1 s2 h
    simp [hash_article_metadata, metadataPreimage, h]
  refine ⟨quant, 3/4, 751/1000, by norm_num, by rw [abs_lt]; constructor <;> norm_num, ?_⟩
  intro sha256 source link tags
  apply quant
  have e1 : (3/4 : ℚ) * 100 = 75 := by norm_num
  have e2 : (751/1000 : ℚ) * 100 = 751/10 := by norm_num
  rw [e1, e2]
  have f1 : pyInt (75 : ℚ) = 75 := by decide
  have hnn : (0 : ℚ) ≤ 751/10 := by norm_num
  have f2 : pyInt ((751 : ℚ)/10) = ⌊(751 : ℚ)/10⌋ := by
    unfold pyInt
    rw [Rat.floor_def]
    exact Int.tdiv_eq_ediv (Rat.num_nonneg.mpr hnn) (Int.ofNat_nonneg _)
  rw [f1, f2]
  norm_num

/-- Witness for C9: at equal concrete scores the quantization hypothesis is
discharged definitionally and the digests agree. -/
theorem c9_witness :
    pyInt ((3/4 : ℚ) * 100) = pyInt ((3/4 : ℚ) * 100) ∧
    hash_article_metadata (fun s => s) "cnn" "https://a" "t1" (3/4) =
      hash_article_metadata (fun s => s) "cnn" "https://a" "t1" (3/4) :=
  ⟨rfl, c9_score_quantization.1 (fun s => s) "cnn" "https://a" "t1" (3/4) (3/4) rfl⟩

/-! ## Claim C7 -/

/-- C7: before the ledger transaction is built, each of title, content,
summary, source, link and tags is independently truncated to its own fixed cap
(300, 500, 200, 100, 300 and 100 characters respectively), and for every
submission outcome the call proceeds with the truncated values and returns a
structured result — an oversized field never aborts the run. -/
theorem c7_truncation (submit : TxFields → SubmitOutcome) (a : ArticleData) :
    (truncate_article_fields a).title = pySlice a.title 300 ∧
    (truncate_article_fields a).content = pySlice a.content 500 ∧
    (truncate_article_fields a).summary = pySlice a.summary 200 ∧
    (truncate_article_fields a).source = pySlice a.source 100 ∧
    (truncate_article_fields a).original_link = pySlice a.original_link 300 ∧
    (truncate_article_fields a).tags = pySlice a.tags 100 ∧
    (truncate_article_fields a).title.length ≤ 300 ∧
    (truncate_article_fields a).content.length ≤ 500 ∧
    (truncate_article_fields a).summary.length ≤ 200 ∧
    (truncate_article_fields a).source.length ≤ 100 ∧
    (truncate_article_fields a).original_link.length ≤ 300 ∧
    (truncate_article_fields a).tags.length ≤ 100 ∧
    store_article_on_blockchain true submit a =
      mkStoreResult (submit (truncate_article_fields a)) := by
  refine ⟨rfl, rfl, rfl, rfl, rfl, rfl, ?_, ?_, ?_, ?_, ?_, ?_, rfl⟩ <;>
    exact pySlice_length_le _ _

/-! ## Claim C2 supporting lemmas -/

/-- Characterization of the generate-stage save loop: it appends exactly the
rows `genRows` and returns exactly the articles `genFas`. -/
theorem generate_articles_eq (pid : Option String) (cycle now : Nat)
    (items : List GenInput) : ∀ rows : List ArticleRow,
    generate_articles rows pid cycle now items =
      (rows ++ genRows rows.length pid cycle now items,
       genFas rows.length pid cycle items) := by
  induction items with
  | nil => intro rows; simp [generate_articles, genRows, genFas]
  | cons it rest ih =>
      intro rows
      have ih1 := ih (rows ++ [mkRow rows.length pid cycle now it])
      simp only [List.length_append, List.length_cons, List.length_nil, Nat.zero_add] at ih1
      simp [generate_articles, save_article_to_db, mkRow, mkFa, List.append_assoc] at ih1
      simp [generate_articles, save_article_to_db, genRows, genFas, mkRow, mkFa,
        List.append_assoc, ih1]

/-- The rows appended by the generate stage have `items.length` entries. -/
theorem genRows_length (pid : Option String) (cycle now : Nat) :
    ∀ (items : List GenInput) (offset : Nat),
      (genRows offset pid cycle now items).length = items.length := by
  intro items
  induction items with
  | nil => intro offset; rfl
  | cons it rest ih => intro offset; simp [genRows, ih]

/-- The articles produced by the generate stage have `items.length` entries. -/
theorem genFas_length (pid : Option String) (cycle : Nat) :
    ∀ (items : List GenInput) (offset : Nat),
      (genFas offset pid cycle items).length = items.length := by
  intro items
  induction items with
  | nil => intro offset; rfl
  | cons it rest ih => intro offset; simp [genFas, ih]

/-- Positional characterization of the appended rows. -/
theorem genRows_getElemOpt (pid : Option String) (cycle now : Nat) :
    ∀ (items : List GenInput) (offset k : Nat),
      (genRows offset pid cycle now items)[k]? =
        (items[k]?).map (fun it => mkRow (offset + k) pid cycle now it) := by
  intro items
  induction items with
  | nil => intro offset k; simp [genRows]
  | cons it rest ih =>
      intro offset k
      cases k with
      | zero => simp [genRows]
      | succ k' =>
          have harith : offset + 1 + k' = offset + (k' + 1) := by omega
          simp [genRows, ih (offset + 1) k', harith]

/-- Every article produced by the generate stage is `mkFa` at its position. -/
theorem genFas_mem (pid : Option String) (cycle : Nat) :
    ∀ (items : List GenInput) (offset : Nat) (fa : FinalArticle),
      fa ∈ genFas offset pid cycle items →
      ∃ m, ∃ hm : m < items.length, fa = mkFa (offset + m) pid cycle (items.get ⟨m, hm⟩) := by
  intro items
  induction items with
  | nil => intro offset fa hfa; simp [genFas] at hfa
  | cons it rest ih =>
      intro offset fa hfa
      rw [genFas, List.mem_cons] at hfa
      rcases hfa with hfa | hfa
      · exact ⟨0, by simp, by simpa using hfa⟩
      · obtain ⟨m, hm, heq⟩ := ih (offset + 1) fa hfa
        refine ⟨m + 1, by simpa using hm, ?_⟩
        have harith : offset + 1 + m = offset + (m + 1) := by omega
        rw [harith] at heq
        simpa using heq

/-- Rows freshly appended by the generate stage carry the table defaults:
not stored on chain and no transaction hash. -/
theorem genRows_unstored (pid : Option String) (cycle now : Nat) :
    ∀ (items : List GenInput) (offset : Nat),
      ∀ row ∈ genRows offset pid cycle now items,
        row.blockchain_stored = false ∧ row.blockchain_transaction_hash = none := by
  intro items
  induction items with
  | nil => intro offset row hrow; simp [genRows] at hrow
  | cons it rest ih =>
      intro offset row hrow
      rw [genRows, List.mem_cons] at hrow
      rcases hrow with hrow | hrow
      · subst hrow; exact ⟨rfl, rfl⟩
      · exact ih (offset + 1) row hrow

/-- The blockchain-info UPDATE leaves id, title and generated content of every
row unchanged. -/
theorem upd_info_coreView (rows : List ArticleRow) (idv : Nat) (info : BlockchainInfo) :
    (update_article_blockchain_info rows idv info).map coreView = rows.map coreView := by
  induction rows with
  | nil => rfl
  | cons a rest ih =>
      by_cases h : a.id = idv <;>
        simpa [update_article_blockchain_info, h, coreView] using ih

/-- The Step-5 update loop leaves id, title and generated content of every row
unchanged. -/
theorem apply_updates_coreView (fas : List FinalArticle) :
    ∀ rows : List ArticleRow,
      (apply_blockchain_updates rows fas).map coreView = rows.map coreView := by
  induction fas with
  | nil => intro rows; rfl
  | cons art rest ih =>
      intro rows
      by_cases h : art.blockchain_hashes.isSome || art.blockchain_stored.getD false
      · rw [apply_blockchain_updates, if_pos h, ih, upd_info_coreView]
      · rw [apply_blockchain_updates, if_neg h, ih]

/-- The Step-5 update loop preserves the number of rows. -/
theorem apply_updates_length (fas : List FinalArticle) (rows : List ArticleRow) :
    (apply_blockchain_updates rows fas).length = rows.length := by
  have h := congrArg List.length (apply_updates_coreView fas rows)
  simpa using h

/-- Positional core-field preservation across the Step-5 update loop. -/
theorem apply_updates_core_getElemOpt (fas : List FinalArticle) (rows : List ArticleRow)
    (i : Nat) :
    ((apply_blockchain_updates rows fas)[i]?).map coreView = (rows[i]?).map coreView := by
  have h := congrArg (fun l => l[i]?) (apply_updates_coreView fas rows)
  simpa [List.getElem?_map] using h

/-- A single blockchain-info UPDATE preserves "every row with id `j` is
unstored with no transaction hash", provided that an update targeting `j`
itself writes `stored_on_chain = false` and no transaction hash. -/
theorem upd_info_keeps_unstored (rows : List ArticleRow) (idv : Nat)
    (info : BlockchainInfo) (j : Nat)
    (hj : idv = j → info.stored_on_chain = false ∧ info.transaction_hash = none)
    (hP : ∀ row ∈ rows, row.id = j →
      row.blockchain_stored = false ∧ row.blockchain_transaction_hash = none) :
    ∀ row ∈ update_article_blockchain_info rows idv info, row.id = j →
      row.blockchain_stored = false ∧ row.blockchain_transaction_hash = none := by
  intro row hrow hid
  simp only [update_article_blockchain_info, List.mem_map] at hrow
  obtain ⟨r0, hr0, heq⟩ := hrow
  by_cases h : r0.id = idv
  · rw [if_pos h] at heq
    subst heq
    have hj2 : idv = j := by rw [← h]; exact hid
    exact hj hj2
  · rw [if_neg h] at heq
    subst heq
    exact hP r0 hr0 hid

/-- The whole Step-5 update loop preserves "every row with id `j` is unstored
with no transaction hash", provided every article targeting `j` carries a
failed attestation. -/
theorem apply_updates_keeps_unstored (fas : List FinalArticle) :
    ∀ (rows : List ArticleRow) (j : Nat),
      (∀ fa ∈ fas, fa.id = j →
        (blockchain_info_of fa).stored_on_chain = false ∧
        (blockchain_info_of fa).transaction_hash = none) →
      (∀ row ∈ rows, row.id = j →
        row.blockchain_stored = false ∧ row.blockchain_transaction_hash = none) →
      ∀ row ∈ apply_blockchain_updates rows fas, row.id = j →
        row.blockchain_stored = false ∧ row.blockchain_transaction_hash = none := by
  induction fas with
  | nil => intro rows j _ hP; exact hP
  | cons art rest ih =>
      intro rows j hfas hP
      by_cases h : art.blockchain_hashes.isSome || art.blockchain_stored.getD false
      · rw [apply_blockchain_updates, if_pos h]
        refine ih _ j (fun fa hfa => hfas fa (List.mem_cons_of_mem _ hfa)) ?_
        exact upd_info_keeps_unstored rows art.id (blockchain_info_of art) j
          (fun hid => hfas art (List.mem_cons_self _ _) hid) hP
      · rw [apply_blockchain_updates, if_neg h]
        exact ih _ j (fun fa hfa => hfas fa (List.mem_cons_of_mem _ hfa)) hP

/-- The attestation step never changes an article's id. -/
theorem hash_one_article_id (sha256 : String → String) (connected : Bool)
    (submit : TxFields → SubmitOutcome) (art : FinalArticle) :
    (hash_one_article sha256 connected submit art).id = art.id := by
  rw [hash_one_article]
  split_ifs <;> rfl

/-- When the on-chain store for an article fails, the attestation step records
`stored_on_chain = false`, keeps the hashes, and — since the article enters the
step without a `blockchain_transaction` — the blockchain info written to the
database carries no transaction hash. -/
theorem hash_one_article_failed (sha256 : String → String) (connected : Bool)
    (submit : TxFields → SubmitOutcome) (art : FinalArticle)
    (htx : art.blockchain_transaction = none)
    (hfail : (store_article_on_blockchain connected submit
        (article_to_article_data art)).stored_on_chain = false) :
    (blockchain_info_of (hash_one_article sha256 connected submit art)).stored_on_chain
        = false ∧
    (blockchain_info_of (hash_one_article sha256 connected submit art)).transaction_hash
        = none ∧
    (hash_one_article sha256 connected submit art).blockchain_hashes.isSome = true := by
  simp [hash_one_article, store_article_hash, blockchain_info_of, hfail, htx]

/-! ## Claim C2 -/

/-- C2: for every article processed in a cycle, if the ledger submission for
that article fails (any failure mode, including connection unavailable, which
is `connected = false`), then after the cycle's generate + attestation + update
steps the article's row still exists, with its original title and generated
content, with `blockchain_stored = false`, and with no transaction hash
recorded; and the step processes every item of the cycle (all rows are added
and all articles are returned), so the run continues unaffected. -/
theorem c2_attestation_failure_keeps_article (sha256 : String → String)
    (connected : Bool) (submit : TxFields → SubmitOutcome)
    (rows : List ArticleRow) (pid : Option String) (cycle now : Nat)
    (items : List GenInput) (k : Nat) (hk : k < items.length)
    (hwf : ∀ row ∈ rows, row.id ≤ rows.length)
    (hfail : (store_article_on_blockchain connected submit
      (article_to_article_data
        (mkFa (rows.length + k) pid cycle (items.get ⟨k, hk⟩)))).stored_on_chain = false) :
    ((cycle_articles_step sha256 connected submit rows pid cycle now items).1.length =
      rows.length + items.length) ∧
    ((cycle_articles_step sha256 connected submit rows pid cycle now items).2.length =
      items.length) ∧
    ∃ row : ArticleRow,
      (cycle_articles_step sha256 connected submit rows pid cycle now items).1[rows.length + k]?
        = some row ∧
      row.id = rows.length + k + 1 ∧
      row.original_title = (items.get ⟨k, hk⟩).title ∧
      row.generated_content = (items.get ⟨k, hk⟩).generated_content ∧
      row.blockchain_stored = false ∧
      row.blockchain_transaction_hash = none := by
  have hgen := generate_articles_eq pid cycle now items rows
  have hstep : cycle_articles_step sha256 connected submit rows pid cycle now items =
      (apply_blockchain_updates (rows ++ genRows rows.length pid cycle now items)
        ((genFas rows.length pid cycle items).map (hash_one_article sha256 connected submit)),
       (genFas rows.length pid cycle items).map (hash_one_article sha256 connected submit)) := by
    rw [cycle_articles_step, hgen]
    rfl
  rw [hstep]
  set rows1 := rows ++ genRows rows.length pid cycle now items with hrows1
  set hashed := (genFas rows.length pid cycle items).map
    (hash_one_article sha256 connected submit) with hhashed
  have hlen1 : (apply_blockchain_updates rows1 hashed).length = rows.length + items.length := by
    rw [apply_updates_length, hrows1]
    simp [genRows_length]
  have hlen2 : hashed.length = items.length := by
    rw [hhashed]
    simp [genFas_length]
  refine ⟨hlen1, hlen2, ?_⟩
  -- the row at position rows.length + k
  have hidx : rows.length + k < (apply_blockchain_updates rows1 hashed).length := by
    rw [hlen1]; omega
  refine ⟨(apply_blockchain_updates rows1 hashed).get ⟨rows.length + k, hidx⟩,
    List.getElem?_eq_getElem hidx, ?_⟩
  -- core fields come from the freshly saved row
  have hcoreEq := apply_updates_core_getElemOpt hashed rows1 (rows.length + k)
  have hrows1get : rows1[rows.length + k]? =
      some (mkRow (rows.length + k) pid cycle now (items.get ⟨k, hk⟩)) := by
    rw [hrows1, List.getElem?_append_right (by omega)]
    rw [genRows_getElemOpt]
    simp [List.getElem?_eq_getElem hk]
  rw [List.getElem?_eq_getElem hidx, hrows1get] at hcoreEq
  have hcore : coreView ((apply_blockchain_updates rows1 hashed).get ⟨rows.length + k, hidx⟩) =
      coreView (mkRow (rows.length + k) pid cycle now (items.get ⟨k, hk⟩)) := by
    simpa using hcoreEq
  rw [coreView, coreView, Prod.mk.injEq, Prod.mk.injEq] at hcore
  obtain ⟨hid, htitle, hcontent⟩ := hcore
  -- the row is unstored with no transaction hash
  have hmem : (apply_blockchain_updates rows1 hashed).get ⟨rows.length + k, hidx⟩ ∈
      apply_blockchain_updates rows1 hashed := List.getElem_mem _
  have hP0 : ∀ row ∈ rows1, row.id = rows.length + k + 1 →
      row.blockchain_stored = false ∧ row.blockchain_transaction_hash = none := by
    intro row hrow hrid
    rw [hrows1, List.mem_append] at hrow
    rcases hrow with hrow | hrow
    · have := hwf row hrow
      omega
    · exact genRows_unstored pid cycle now items rows.length row hrow
  have hfas : ∀ fa ∈ hashed, fa.id = rows.length + k + 1 →
      (blockchain_info_of fa).stored_on_chain = false ∧
      (blockchain_info_of fa).transaction_hash = none := by
    intro fa hfa hfid
    rw [hhashed] at hfa
    simp only [List.mem_map] at hfa
    obtain ⟨fa0, hfa0, hfa0eq⟩ := hfa
    obtain ⟨m, hm, hfa0def⟩ := genFas_mem pid cycle items rows.length fa0 hfa0
    subst hfa0eq
    rw [hash_one_article_id] at hfid
    have hmk : m = k := by
      rw [hfa0def] at hfid
      simp only [mkFa] at hfid
      omega
    subst hmk
    subst hfa0def
    have hres := hash_one_article_failed sha256 connected submit
      (mkFa (rows.length + m) pid cycle (items.get ⟨m, hm⟩)) rfl hfail
    exact ⟨hres.1, hres.2.1⟩
  have hPfinal := apply_updates_keeps_unstored hashed rows1 (rows.length + k + 1) hfas hP0
  have hrowprops := hPfinal _ hmem (by rw [hid]; rfl)
  exact ⟨by rw [hid]; rfl, htitle, hcontent, hrowprops.1, hrowprops.2⟩

/-- Witness for C2 at a concrete cycle: empty table, one item, ledger
connection unavailable.  The hypotheses are discharged concretely and the
saved row survives with `blockchain_stored = false` and no transaction
hash. -/
theorem c2_witness :
    (0 : Nat) < [c2Item].length ∧
    (∀ row ∈ ([] : List ArticleRow), row.id ≤ ([] : List ArticleRow).length) ∧
    (store_article_on_blockchain false (fun _ => SubmitOutcome.exn "down")
      (article_to_article_data (mkFa 0 (some "p") 1 c2Item))).stored_on_chain = false ∧
    ∃ row : ArticleRow,
      (cycle_articles_step (fun s => s) false (fun _ => SubmitOutcome.exn "down")
          [] (some "p") 1 0 [c2Item]).1[0]? = some row ∧
      row.id = 1 ∧
      row.original_title = "T" ∧
      row.generated_content = "G" ∧
      row.blockchain_stored = false ∧
      row.blockchain_transaction_hash = none := by
  have hk : (0 : Nat) < [c2Item].length := by simp
  have hwf : ∀ row ∈ ([] : List ArticleRow), row.id ≤ ([] : List ArticleRow).length := by simp
  have hfail : (store_article_on_blockchain false (fun _ => SubmitOutcome.exn "down")
      (article_to_article_data (mkFa 0 (some "p") 1 c2Item))).stored_on_chain = false := rfl
  have h := c2_attestation_failure_keeps_article (fun s => s) false
    (fun _ => SubmitOutcome.exn "down") [] (some "p") 1 0 [c2Item] 0 hk hwf hfail
  exact ⟨hk, hwf, hfail, h.2.2⟩

/-! ## Claim C8 -/

/-- Accumulating fold over sources: anything contributed by a listed source is
in the fold's result. -/
theorem foldl_append_mem {α β : Type} (f : β → List α) :
    ∀ (sources : List β) (init : List α) (a : α),
      ((∃ s ∈ sources, a ∈ f s) ∨ a ∈ init) →
      a ∈ sources.foldl (fun acc s => acc ++ f s) init := by
  intro sources
  induction sources with
  | nil =>
      intro init a h
      rcases h with ⟨s, hs, _⟩ | h
      · simp at hs
      · simpa using h
  | cons s rest ih =>
      intro init a h
      rw [List.foldl_cons]
      apply ih
      rcases h with ⟨s0, hs0, ha⟩ | ha
      · rcases List.mem_cons.mp hs0 with heq | hs0'
        · right
          subst heq
          exact List.mem_append_right _ ha
        · exact Or.inl ⟨s0, hs0', ha⟩
      · right
        exact List.mem_append_left _ ha

/-- C8: in the fetch stage, an item whose page retrieval or parsing raises is
caught and that item's content falls back to its summary; every item gathered
from a listed source appears in the overall fetch result, whatever the other
sources' oracles do; and a source whose feed retrieval raises is caught and
contributes no items (so fetch as a whole returns the other sources' items
rather than aborting). -/
theorem c8_fetch_fault_isolation (page : String → PageFetch) (feed : String → FeedFetch)
    (sources : List String) :
    (∀ (source_url : String) (e : FeedEntry) (msg : String),
      page e.link = PageFetch.exn msg →
      (fetch_item page source_url e).content = e.summary) ∧
    (∀ source_url ∈ sources, ∀ a ∈ fetch_source page feed source_url,
      a ∈ fetch_news page feed sources) ∧
    (∀ (source_url msg : String), feed source_url = FeedFetch.exn msg →
      fetch_source page feed source_url = []) := by
  refine ⟨?_, ?_, ?_⟩
  · intro source_url e msg h
    simp [fetch_item, h]
  · intro source_url hs a ha
    exact foldl_append_mem _ sources [] a (Or.inl ⟨source_url, hs, ha⟩)
  · intro source_url msg h
    simp [fetch_source, h]

/-- Witness for C8 with concrete oracles: source S1's feed is down and yields
nothing, the surviving source S2's item is in the overall result, and the item
whose page fetch times out falls back to its summary. -/
theorem c8_witness :
    c8Page c8Entry.link = PageFetch.exn "timeout" ∧
    (fetch_item c8Page "S2" c8Entry).content = c8Entry.summary ∧
    ("S2" : String) ∈ ["S1", "S2"] ∧
    fetch_item c8Page "S2" c8Entry ∈ fetch_source c8Page c8Feed "S2" ∧
    fetch_item c8Page "S2" c8Entry ∈ fetch_news c8Page c8Feed ["S1", "S2"] ∧
    c8Feed "S1" = FeedFetch.exn "down" ∧
    fetch_source c8Page c8Feed "S1" = [] := by
  have h := c8_fetch_fault_isolation c8Page c8Feed ["S1", "S2"]
  have hpage : c8Page c8Entry.link = PageFetch.exn "timeout" := rfl
  have hmem : ("S2" : String) ∈ ["S1", "S2"] := by decide
  have hitem : fetch_item c8Page "S2" c8Entry ∈ fetch_source c8Page c8Feed "S2" := by
    simp [fetch_source, c8Feed]
  exact ⟨hpage, h.1 "S2" c8Entry "timeout" hpage, hmem, hitem,
    h.2.1 "S2" hmem _ hitem, rfl, h.2.2 "S1" "down" rfl⟩

/-! ## Claim C5 -/

/-- C5: `run_pipeline` invoked while a run is active returns immediately
(agents.py lines 377-379): the agent state — run id, cycle counter, article
counter — and the run store are returned unchanged; the attempt is rejected,
not queued. -/
theorem c5_reentrant_start_rejected (s : AgentState) (db : RunStore) (pid : String)
    (duration_minutes now : Nat) (sched : Nat → CycleSpec) (stopDuring : Option Nat)
    (fuel : Nat) (h : s.is_running = true) :
    run_pipeline s db pid duration_minutes now sched stopDuring fuel = (s, db) := by
  simp [run_pipeline, h]

/-- Witness for C5: a freshly started agent rejects a second start with no
state change. -/
theorem c5_witness :
    (pipeline_init "p0" 0).is_running = true ∧
    run_pipeline (pipeline_init "p0" 0) ⟨[], []⟩ "p1" 30 5 (fun _ => ⟨2, 60, false⟩) none 10 =
      (pipeline_init "p0" 0, ⟨[], []⟩) :=
  ⟨rfl, c5_reentrant_start_rejected (pipeline_init "p0" 0) ⟨[], []⟩ "p1" 30 5
    (fun _ => ⟨2, 60, false⟩) none 10 rfl⟩

/-! ## Claim C10 -/

/-- C10: however a run terminates, the `finally` cleanup clears only the
running flag and the current run id: afterwards `get_status` reports
`is_running = false` and a null pipeline id while `current_cycle`,
`total_articles_processed` and `start_time` retain the loop's final values;
and the next accepted start resets the counters to zero. -/
theorem c10_cleanup_frame (s : AgentState) (db : RunStore) (pid : String)
    (duration_minutes now : Nat) (sched : Nat → CycleSpec) (stopDuring : Option Nat)
    (fuel : Nat) (h : s.is_running = false) :
    (run_pipeline s db pid duration_minutes now sched stopDuring fuel).1 =
      pipeline_cleanup (loop_final db pid duration_minutes now sched stopDuring fuel).agent ∧
    (get_status (run_pipeline s db pid duration_minutes now sched stopDuring fuel).1).is_running
      = false ∧
    (get_status (run_pipeline s db pid duration_minutes now sched stopDuring fuel).1).pipeline_id
      = none ∧
    (get_status (run_pipeline s db pid duration_minutes now sched stopDuring fuel).1).current_cycle
      = (loop_final db pid duration_minutes now sched stopDuring fuel).agent.current_cycle ∧
    (get_status
        (run_pipeline s db pid duration_minutes now sched stopDuring fuel).1).total_articles_processed
      = (loop_final db pid duration_minutes now sched stopDuring fuel).agent.total_articles_processed ∧
    (get_status (run_pipeline s db pid duration_minutes now sched stopDuring fuel).1).start_time
      = (loop_final db pid duration_minutes now sched stopDuring fuel).agent.start_time ∧
    (∀ (pid2 : String) (now2 : Nat),
      get_status (pipeline_init pid2 now2) =
        { is_running := true, pipeline_id := some pid2, start_time := some now2,
          current_cycle := 0, total_articles_processed := 0 }) := by
  cases hfe : (loop_final db pid duration_minutes now sched stopDuring fuel).errored with
  | none => simp [run_pipeline, h, hfe, get_status, pipeline_cleanup, pipeline_init]
  | some msg => simp [run_pipeline, h, hfe, get_status, pipeline_cleanup, pipeline_init]

/-- Witness for C10 at a concrete one-cycle run. -/
theorem c10_witness :
    ((⟨false, none, none, 0, 0⟩ : AgentState).is_running = false) ∧
    (run_pipeline ⟨false, none, none, 0, 0⟩ ⟨[], []⟩ "p" 1 0
        (fun _ => ⟨2, 10, false⟩) none 5).1 =
      pipeline_cleanup (loop_final ⟨[], []⟩ "p" 1 0 (fun _ => ⟨2, 10, false⟩) none 5).agent ∧
    (get_status (run_pipeline ⟨false, none, none, 0, 0⟩ ⟨[], []⟩ "p" 1 0
        (fun _ => ⟨2, 10, false⟩) none 5).1).is_running = false ∧
    (get_status (run_pipeline ⟨false, none, none, 0, 0⟩ ⟨[], []⟩ "p" 1 0
        (fun _ => ⟨2, 10, false⟩) none 5).1).pipeline_id = none ∧
    get_status (pipeline_init "q" 7) =
      { is_running := true, pipeline_id := some "q", start_time := some 7,
        current_cycle := 0, total_articles_processed := 0 } := by
  have h := c10_cleanup_frame ⟨false, none, none, 0, 0⟩ ⟨[], []⟩ "p" 1 0
    (fun _ => ⟨2, 10, false⟩) none 5 rfl
  exact ⟨rfl, h.1, h.2.1, h.2.2.1, h.2.2.2.2.2.2 "q" 7⟩

/-! ## Claim C1 -/

/-- C1 refuting trace (the claim is right about the code's intent but the
code contradicts it): start a 30-minute run in which every cycle takes 60
seconds and saves 2 articles, and invoke `stop_pipeline` during cycle 1 or the
following sleep.  The cleanup task writes STOPPED (with `ended_at` set), the
loop observes the cleared flag at the next boundary and runs no further cycle
(the fourth conjunct: with the flag cleared, the remaining loop is the
identity; `current_cycle` stays 1) — but the post-loop code of `run_pipeline`
(agents.py line 498) then unconditionally overwrites the run's status with
COMPLETED, so the run's persisted status does not remain STOPPED: the status
write history is STOPPED followed by COMPLETED and the surviving row says
COMPLETED. -/
theorem c1_stop_overwritten_by_completed :
    (run_pipeline ⟨false, none, none, 0, 0⟩ ⟨[], []⟩ "p1" 30 0
        (fun _ => ⟨2, 60, false⟩) (some 1) 10).2.statusWrites =
      [("p1", "STOPPED"), ("p1", "COMPLETED")] ∧
    (run_pipeline ⟨false, none, none, 0, 0⟩ ⟨[], []⟩ "p1" 30 0
        (fun _ => ⟨2, 60, false⟩) (some 1) 10).2.runs =
      [{ pipeline_id := "p1", status := "COMPLETED", current_cycle := 1, total_cycles := 1,
         articles_processed := 2, error_message := none, created_at := 0, updated_at := 360,
         started_at := 0, ended_at := some 360, duration_minutes := 30 }] ∧
    (run_pipeline ⟨false, none, none, 0, 0⟩ ⟨[], []⟩ "p1" 30 0
        (fun _ => ⟨2, 60, false⟩) (some 1) 10).1 =
      { is_running := false, current_pipeline_id := none, start_time := some 0,
        current_cycle := 1, total_articles_processed := 2 } ∧
    run_cycle_loop
      { pid := "p1", end_time := 1800, sched := fun _ => ⟨2, 60, false⟩,
        stopDuring := some 1 } 9
      { agent := { is_running := false, current_pipeline_id := some "p1",
                   start_time := some 0, current_cycle := 1,
                   total_articles_processed := 2 },
        db := { runs := [{ pipeline_id := "p1", status := "STOPPED", current_cycle := 1,
                           total_cycles := 1, articles_processed := 2, error_message := none,
                           created_at := 0, updated_at := 60, started_at := 0,
                           ended_at := some 60, duration_minutes := 30 }],
                statusWrites := [("p1", "STOPPED")] },
        now := 360, errored := none } =
      { agent := { is_running := false, current_pipeline_id := some "p1",
                   start_time := some 0, current_cycle := 1,
                   total_articles_processed := 2 },
        db := { runs := [{ pipeline_id := "p1", status := "STOPPED", current_cycle := 1,
                           total_cycles := 1, articles_processed := 2, error_message := none,
                           created_at := 0, updated_at := 60, started_at := 0,
                           ended_at := some 60, duration_minutes := 30 }],
                statusWrites := [("p1", "STOPPED")] },
        now := 360, errored := none } := by
  exact ⟨rfl, rfl, rfl, rfl⟩
